import Mathlib

/-!
Verification development for the TidesDB storage-engine core (src/tidesdb.c).

The definitions below are a shallow embedding of the C source.  Byte buffers
are modelled as lists of naturals (one per byte), `time_t` and `int64_t` as
`Int`, and every fallible C function returns its numeric error code (the
message strings of `tidesdb_err_new` are dropped; the codes identify them).
External collaborators that are out of scope of the core (the skiplist used
as memtable, the pager, the bloom filter, the codec) are modelled from their
contracts in the specification; each such definition carries a doc comment
saying so.  Everything else is translated directly from the C functions,
keeping their names (leading underscores of internal helpers are dropped).
-/

namespace TidesDB

/-- A byte buffer: one natural number per byte. -/
abbrev Bytes := List Nat

/-- The 4-byte buffer holding the constant `TOMBSTONE = 0xFFFFFFFF`
(all four bytes are 0xFF in either endianness). -/
def TOMBSTONE_BYTES : Bytes := [255, 255, 255, 255]

/-- `_is_tombstone(value, value_size)`: true iff `value_size == 4` and the four
bytes read as the 32-bit constant `TOMBSTONE = 0xFFFFFFFF`. -/
def is_tombstone (value : Bytes) : Bool := value == TOMBSTONE_BYTES

/-- `_compare_keys`: byte-wise comparison up to the shorter length, then the
shorter key is smaller; returns -1, 0 or 1 like the C function. -/
def compare_keys : Bytes → Bytes → Int
  | [], [] => 0
  | [], _ :: _ => -1
  | _ :: _, [] => 1
  | a :: t1, b :: t2 =>
    if a < b then -1
    else if b < a then 1
    else compare_keys t1 t2

/-- `key_value_pair` from serializable_structures.h: `{key, value, ttl}`
(the two size fields are the lengths of the lists). -/
structure key_value_pair where
  key : Bytes
  value : Bytes
  ttl : Int
deriving Repr, DecidableEq

/-- `enum OP_CODE` from serializable_structures.h. -/
inductive OP_CODE where
  | OP_PUT
  | OP_DELETE
deriving Repr, DecidableEq

/-- `operation` from serializable_structures.h: an op-code, the target column
family name, and the key-value payload. -/
structure operation where
  op_code : OP_CODE
  column_family : String
  kv : key_value_pair
deriving Repr, DecidableEq

/-- `column_family_config`: probability is modelled as a rational standing in
for the C `float`. -/
structure column_family_config where
  name : String
  flush_threshold : Int
  max_level : Int
  probability : ℚ
  compressed : Bool
deriving Repr, DecidableEq

/-! ### The memtable (external skiplist), modelled from the spec

Modelled from the spec: the skiplist is an external collaborator
(spec sections 4.3 and 6): an ordered map by byte-lexicographic key with
overwrite-on-put semantics, whose per-node data is `{key, value, ttl}` and
whose `total_size` is the byte size of the stored keys and values.  Its `get`
is a plain lookup of the stored value (the read path of section 4.7 step 1
checks only for the tombstone); no TTL filtering is part of its contract.
We represent it as a list of nodes sorted by `compare_keys`. -/
abbrev skiplist := List key_value_pair

/-- Modelled from the spec: `skiplist_put`, ordered insert with overwrite. -/
def skiplist_put (sl : skiplist) (key value : Bytes) (ttl : Int) : skiplist :=
  match sl with
  | [] => [⟨key, value, ttl⟩]
  | e :: rest =>
    if compare_keys key e.key < 0 then ⟨key, value, ttl⟩ :: e :: rest
    else if compare_keys key e.key = 0 then ⟨key, value, ttl⟩ :: rest
    else e :: skiplist_put rest key value ttl

/-- Modelled from the spec: `skiplist_get`, lookup of the stored value. -/
def skiplist_get (sl : skiplist) (key : Bytes) : Option Bytes :=
  (sl.find? (fun e => e.key == key)).map (fun e => e.value)

/-- Modelled from the spec: `skiplist_delete`, removal of a node. -/
def skiplist_delete (sl : skiplist) (key : Bytes) : skiplist :=
  sl.filter (fun e => !(e.key == key))

/-- Modelled from the spec: `total_size`, the sum of key and value bytes. -/
def skiplist_total_size (sl : skiplist) : Nat :=
  (sl.map (fun e => e.key.length + e.value.length)).sum

/-! ### SSTables, column families and the database state -/

/-- An SSTable file: its first page holds the serialized bloom filter, the
following pages hold one serialized key-value record each.  The bloom filter
is external; we model it by the list of keys added to it, and membership
checking as exact lookup (an admissible bloom filter: no false negatives). -/
structure sstable where
  bloom : List Bytes
  pages : List key_value_pair
deriving Repr, DecidableEq

/-- Modelled from the spec: `bloomfilter_check` answers membership; a bloom
filter has no false negatives, and we instantiate the one with no false
positives either (exact membership). -/
def bloomfilter_check (bloom : List Bytes) (key : Bytes) : Bool :=
  bloom.contains key

/-- `column_family` runtime state: config, memtable, and the SSTable list
ordered oldest first (the last element is the newest). -/
structure column_family where
  config : column_family_config
  memtable : skiplist
  sstables : List sstable
deriving Repr, DecidableEq

/-- A `queue_entry` of the flush queue: the column family name, the memtable
snapshot, and the WAL checkpoint (page count at enqueue time). -/
structure queue_entry where
  cf_name : String
  memtable : skiplist
  wal_checkpoint : Nat
deriving Repr, DecidableEq

/-- The database state: the column-family catalog, the WAL (a list of
operation records, one per page, in append order), and the flush queue. -/
structure tidesdb where
  column_families : List column_family
  wal : List operation
  flush_queue : List queue_entry
deriving Repr, DecidableEq

/-- `_get_column_family` restricted to the list: linear scan for the first
column family with the given name. -/
def find_cf (cfs : List column_family) (name : String) : Option column_family :=
  cfs.find? (fun cf => cf.config.name == name)

/-- `_get_column_family`. -/
def get_column_family (tdb : tidesdb) (name : String) : Option column_family :=
  find_cf tdb.column_families name

/-- Apply `f` to the first column family with the given name (the C code
mutates the struct found by `_get_column_family` in place). -/
def update_first (cfs : List column_family) (name : String)
    (f : column_family → column_family) : List column_family :=
  match cfs with
  | [] => []
  | cf :: rest =>
    if cf.config.name == name then f cf :: rest
    else cf :: update_first rest name f

/-- Database-level update of one column family. -/
def update_cf (tdb : tidesdb) (name : String)
    (f : column_family → column_family) : tidesdb :=
  { tdb with column_families := update_first tdb.column_families name f }

/-! ### The write path -/

/-- `_append_to_wal`: build the operation record for the arguments and append
it to the WAL as one page (the codec round-trips byte-exactly, so the WAL is
modelled as the list of the appended operation records). -/
def append_to_wal (w : List operation) (key value : Bytes) (ttl : Int)
    (op_code : OP_CODE) (cf : String) : List operation :=
  w ++ [⟨op_code, cf, ⟨key, value, ttl⟩⟩]

/-- `tidesdb_put`.  The result pairs the returned error code (`none` =
success, as the C function returns `NULL`) with the database state after the
call.  `memtable_put_ok` stands for the boolean result of the external
`skiplist_put` (which can fail on allocation): the C code appends to the WAL
first and, when the memtable insertion then fails, returns error 1050 without
undoing the WAL append.  When the memtable crosses the flush threshold after
the insert, a deep copy of it is enqueued on the flush queue together with
the current WAL page count, and the live memtable is cleared. -/
def tidesdb_put (now : Int) (memtable_put_ok : Bool) (tdb : tidesdb)
    (cf_name : String) (key value : Bytes) (ttl : Int) :
    Option Nat × tidesdb :=
  match get_column_family tdb cf_name with
  | none => (some 1028, tdb)
  | some cf =>
    let tdb1 := { tdb with
      wal := append_to_wal tdb.wal key value ttl OP_CODE.OP_PUT cf_name }
    if memtable_put_ok = false then
      (some 1050, tdb1)
    else
      let newmem := skiplist_put cf.memtable key value ttl
      let tdb2 := update_cf tdb1 cf_name (fun c => { c with memtable := newmem })
      if (skiplist_total_size newmem : Int) ≥ cf.config.flush_threshold then
        let tdb3 := update_cf tdb2 cf_name (fun c => { c with memtable := [] })
        (none, { tdb3 with
          flush_queue := tdb3.flush_queue ++ [⟨cf_name, newmem, tdb2.wal.length⟩] })
      else
        (none, tdb2)

/-- `tidesdb_delete`: append a DELETE record carrying the 4-byte tombstone
with ttl 0 to the WAL, then insert the tombstone with ttl -1 into the
memtable.  No flush-threshold check is performed by the C function. -/
def tidesdb_delete (tdb : tidesdb) (cf_name : String) (key : Bytes) :
    Option Nat × tidesdb :=
  match get_column_family tdb cf_name with
  | none => (some 1028, tdb)
  | some _ =>
    let tdb1 := { tdb with
      wal := append_to_wal tdb.wal key TOMBSTONE_BYTES 0 OP_CODE.OP_DELETE cf_name }
    (none, update_cf tdb1 cf_name (fun c =>
      { c with memtable := skiplist_put c.memtable key TOMBSTONE_BYTES (-1) }))

/-! ### The read path -/

/-- Outcome of the linear page scan of one SSTable inside `tidesdb_get`. -/
inductive scan_result where
  | found (value : Bytes)
  | err (code : Nat)
  | absent
deriving Repr, DecidableEq

/-- The page loop of `tidesdb_get` over one SSTable (the pages after the
bloom-filter page, in file order).  On the first key match: a tombstone
returns error 1031, an expired ttl (`ttl != -1 && ttl < now`) returns error
1039, otherwise the value is returned; with no match the scan is exhausted. -/
def sstable_scan (now : Int) (key : Bytes) : List key_value_pair → scan_result
  | [] => .absent
  | kv :: rest =>
    if compare_keys kv.key key = 0 then
      if is_tombstone kv.value then .err 1031
      else if kv.ttl != -1 && kv.ttl < now then .err 1039
      else .found kv.value
    else sstable_scan now key rest

/-- The SSTable loop of `tidesdb_get`, iterating newest → oldest (the
argument list is the reversed sstable list).  An sstable whose bloom filter
reports the key absent is skipped; otherwise its pages are scanned and a
tombstone or expired hit ends the whole lookup with "Key not found". -/
def sstables_get_newest_first (now : Int) (key : Bytes) :
    List sstable → Except Nat Bytes
  | [] => .error 1031
  | sst :: older =>
    if bloomfilter_check sst.bloom key = false then
      sstables_get_newest_first now key older
    else
      match sstable_scan now key sst.pages with
      | .found v => .ok v
      | .err code => .error code
      | .absent => sstables_get_newest_first now key older

/-- `tidesdb_get`.  `value0` is the initial content of the caller-supplied
output buffer `*value` (of length `*value_size`), which the C function reads
before doing anything else: if it already holds the tombstone sentinel the
call fails with error 1066 before the column family is even resolved.  On a
memtable hit the value is returned unless it is a tombstone (error 1031, no
TTL check on this path); otherwise the SSTables are searched newest first. -/
def tidesdb_get (now : Int) (tdb : tidesdb) (cf_name : String) (key : Bytes)
    (value0 : Bytes) : Except Nat Bytes :=
  if is_tombstone value0 then .error 1066
  else
    match get_column_family tdb cf_name with
    | none => .error 1028
    | some cf =>
      match skiplist_get cf.memtable key with
      | some v => if is_tombstone v then .error 1031 else .ok v
      | none => sstables_get_newest_first now key cf.sstables.reverse

/-! ### Flush -/

/-- The entries of a memtable snapshot that `_flush_memtable` keeps: not a
tombstone and not TTL-expired at flush time. -/
def live_entries (now : Int) (sl : skiplist) : List key_value_pair :=
  sl.filter (fun e => !is_tombstone e.value && !(e.ttl != -1 && e.ttl < now))

/-- `_flush_memtable` applied to a dequeued flush-queue entry.  The bloom
filter receives every live key of the snapshot; if nothing was added
(`bf->size == 0`) the flush aborts returning false: no SSTable is published
and the WAL is not truncated.  Otherwise the kv pages are written in
memtable order, each record with its ttl field set to -1 by the C code (the
struct initializer in `_flush_memtable` hardcodes -1), the new SSTable is
appended to the column family, and the WAL is truncated to the checkpoint. -/
def flush_memtable (now : Int) (tdb : tidesdb) (cf_name : String)
    (snapshot : skiplist) (wal_checkpoint : Nat) : tidesdb :=
  let live := live_entries now snapshot
  if live.isEmpty then tdb
  else
    let sst : sstable :=
      ⟨live.map (fun e => e.key), live.map (fun e => ⟨e.key, e.value, -1⟩)⟩
    let tdb1 := update_cf tdb cf_name (fun c =>
      { c with sstables := c.sstables ++ [sst] })
    { tdb1 with wal := tdb1.wal.take wal_checkpoint }

/-- A forced flush: the enqueue block of `tidesdb_put`/`tidesdb_txn_commit`
(deep-copy the memtable, record the WAL page count as checkpoint, clear the
live memtable) composed with the flush worker draining that single entry
through `_flush_memtable`. -/
def force_flush (now : Int) (tdb : tidesdb) (cf_name : String) : tidesdb :=
  match get_column_family tdb cf_name with
  | none => tdb
  | some cf =>
    let snapshot := cf.memtable
    let checkpoint := tdb.wal.length
    let tdb1 := update_cf tdb cf_name (fun c => { c with memtable := [] })
    flush_memtable now tdb1 cf_name snapshot checkpoint

/-! ### WAL replay -/

/-- The per-record effect of `_replay_from_wal` on the target memtable:
a PUT record is re-inserted as stored; a DELETE record re-inserts the 4-byte
tombstone with ttl -1. -/
def replay_op (mem : skiplist) (op : operation) : skiplist :=
  match op.op_code with
  | .OP_PUT => skiplist_put mem op.kv.key op.kv.value op.kv.ttl
  | .OP_DELETE => skiplist_put mem op.kv.key TOMBSTONE_BYTES (-1)

/-- `_replay_from_wal`: iterate the WAL pages oldest first, resolve the
column family of each record by name and apply it to that memtable; if the
column family is missing the replay stops (the C loop breaks), leaving the
database as is. -/
def replay_from_wal (tdb : tidesdb) : List operation → tidesdb
  | [] => tdb
  | op :: rest =>
    match find_cf tdb.column_families op.column_family with
    | none => tdb
    | some _ =>
      replay_from_wal
        (update_cf tdb op.column_family (fun c =>
          { c with memtable := replay_op c.memtable op })) rest

/-- A client request against one column family, as issued through
`tidesdb_put` / `tidesdb_delete`. -/
inductive client_op where
  | put (key value : Bytes) (ttl : Int)
  | del (key : Bytes)
deriving Repr, DecidableEq

/-- The WAL record that `tidesdb_put` / `tidesdb_delete` appends for a
client operation (a delete is recorded with the tombstone value and ttl 0). -/
def wal_record (cf_name : String) : client_op → operation
  | .put key value ttl => ⟨.OP_PUT, cf_name, ⟨key, value, ttl⟩⟩
  | .del key => ⟨.OP_DELETE, cf_name, ⟨key, TOMBSTONE_BYTES, 0⟩⟩

/-- The direct memtable effect of a client operation (the memtable insert
performed by `tidesdb_put`, resp. the tombstone insert with ttl -1 performed
by `tidesdb_delete`). -/
def apply_client_op (mem : skiplist) : client_op → skiplist
  | .put key value ttl => skiplist_put mem key value ttl
  | .del key => skiplist_put mem key TOMBSTONE_BYTES (-1)

/-! ### Compaction merge -/

/-- One insertion attempt of the `_merge_sstables` read loop: a kv page is
inserted into the merge skiplist and its key added to the bloom filter only
when it is not a tombstone and satisfies `ttl > 0 && ttl > now`; every other
record (including ttl = -1, the no-expiry sentinel) is dropped.  The
accumulator is the merge skiplist together with the keys added to the new
bloom filter in insertion order. -/
def merge_insert (now : Int) (acc : skiplist × List Bytes)
    (kv : key_value_pair) : skiplist × List Bytes :=
  if !is_tombstone kv.value && (kv.ttl > 0 && kv.ttl > now) then
    (skiplist_put acc.1 kv.key kv.value kv.ttl, acc.2 ++ [kv.key])
  else acc

/-- The read loop of `_merge_sstables`: the two page cursors advance in
lockstep, each iteration reading (at most) one page from each input and
inserting first the record of the first sstable, then the record of the
second; once the first input is exhausted the remaining pages of the second
are inserted one per iteration. -/
def merge_loop (now : Int) :
    List key_value_pair → List key_value_pair → skiplist × List Bytes →
    skiplist × List Bytes
  | [], l2, acc => l2.foldl (merge_insert now) acc
  | kv1 :: r1, [], acc => merge_loop now r1 [] (merge_insert now acc kv1)
  | kv1 :: r1, kv2 :: r2, acc =>
    merge_loop now r1 r2 (merge_insert now (merge_insert now acc kv1) kv2)

/-- `_merge_sstables`: merge the pages of the two inputs into a fresh
skiplist and bloom filter; if the merge skiplist ends up with total size 0
the new file is removed and no sstable is produced (`NULL`), otherwise the
new sstable holds the bloom filter page followed by the merged records in
key order. -/
def merge_sstables (now : Int) (sst1 sst2 : sstable) : Option sstable :=
  let acc := merge_loop now sst1.pages sst2.pages ([], [])
  if skiplist_total_size acc.1 = 0 then none
  else some ⟨acc.2, acc.1⟩

/-! ### Column-family creation -/

/-- `_new_column_family`: a fresh runtime column family with an empty
memtable and no sstables (directory and config-file writing are I/O and
assumed to succeed). -/
def new_column_family (name : String) (flush_threshold max_level : Int)
    (probability : ℚ) (compressed : Bool) : column_family :=
  ⟨⟨name, flush_threshold, max_level, probability, compressed⟩, [], []⟩

/-- `_add_column_family`: unconditionally append the new column family to
the catalog (the C function performs no duplicate-name check). -/
def add_column_family (tdb : tidesdb) (cf : column_family) : tidesdb :=
  { tdb with column_families := tdb.column_families ++ [cf] }

/-- `tidesdb_create_column_family`: validate the arguments (name length ≥ 2,
flush threshold ≥ 1048576, max level ≥ 5, probability ≥ 0.1), then create
and add the column family. -/
def tidesdb_create_column_family (tdb : tidesdb) (name : String)
    (flush_threshold max_level : Int) (probability : ℚ) (compressed : Bool) :
    Option Nat × tidesdb :=
  if name.length < 2 then (some 1016, tdb)
  else if flush_threshold < 1048576 then (some 1017, tdb)
  else if max_level < 5 then (some 1018, tdb)
  else if probability < mkRat 1 10 then (some 1019, tdb)
  else
    (none, add_column_family tdb
      (new_column_family name flush_threshold max_level probability compressed))

/-! ### Transactions -/

/-- `txn_op`: the operation, its rollback record, and the committed flag.
`tidesdb_txn_put` never assigns the `rollback_op` field, so for a PUT it
remains uninitialized memory; `none` models that uninitialized state. -/
structure txn_op where
  op : operation
  rollback_op : Option operation
  committed : Bool
deriving Repr, DecidableEq

/-- `txn`: the target column family name and the ordered op buffer. -/
structure txn where
  column_family : String
  ops : List txn_op
deriving Repr, DecidableEq

/-- `tidesdb_txn_begin`. -/
def tidesdb_txn_begin (cf_name : String) : txn := ⟨cf_name, []⟩

/-- `tidesdb_txn_put`: append a PUT op, committed = false.  The C function
leaves `rollback_op` unset (uninitialized), modelled as `none`. -/
def tidesdb_txn_put (t : txn) (key value : Bytes) (ttl : Int) : txn :=
  { t with ops := t.ops ++
      [⟨⟨.OP_PUT, t.column_family, ⟨key, value, ttl⟩⟩, none, false⟩] }

/-- `tidesdb_txn_delete`: append a DELETE op (value NULL of size 0, ttl 0)
whose rollback record is a PUT of an empty value with ttl 0. -/
def tidesdb_txn_delete (t : txn) (key : Bytes) : txn :=
  { t with ops := t.ops ++
      [⟨⟨.OP_DELETE, t.column_family, ⟨key, [], 0⟩⟩,
        some ⟨.OP_PUT, t.column_family, ⟨key, [], 0⟩⟩, false⟩] }

/-- The memtable effect of committing one transaction op: PUT inserts the
payload, DELETE inserts the 4-byte tombstone with ttl 0. -/
def commit_op (mem : skiplist) (op : operation) : skiplist :=
  match op.op_code with
  | .OP_PUT => skiplist_put mem op.kv.key op.kv.value op.kv.ttl
  | .OP_DELETE => skiplist_put mem op.kv.key TOMBSTONE_BYTES 0

/-- `tidesdb_txn_commit`: under the memtable write lock, apply every not yet
committed op to the memtable and mark it committed; afterwards, if the
memtable crossed the flush threshold, enqueue a snapshot exactly as
`tidesdb_put` does and clear the live memtable. -/
def tidesdb_txn_commit (tdb : tidesdb) (t : txn) :
    Option Nat × tidesdb × txn :=
  match get_column_family tdb t.column_family with
  | none => (some 1028, tdb, t)
  | some cf =>
    let newmem := (t.ops.filter (fun o => !o.committed)).foldl
      (fun m o => commit_op m o.op) cf.memtable
    let t1 := { t with ops := t.ops.map (fun o => { o with committed := true }) }
    let tdb1 := update_cf tdb t.column_family (fun c => { c with memtable := newmem })
    if (skiplist_total_size newmem : Int) ≥ cf.config.flush_threshold then
      let tdb2 := update_cf tdb1 t.column_family (fun c => { c with memtable := [] })
      (none, { tdb2 with
        flush_queue := tdb2.flush_queue ++
          [⟨t.column_family, newmem, tdb1.wal.length⟩] }, t1)
    else
      (none, tdb1, t1)

/-- The loop of `tidesdb_txn_rollback` over the op buffer.  For every
committed op the C code dereferences `ops[i].rollback_op`; for an op added
by `tidesdb_txn_put` that pointer was never initialized, so the dereference
is undefined behavior — modelled by the result `none`.  When the rollback
record exists, its column family is resolved (error 1028 if missing) and its
inverse is applied: OP_PUT deletes the key from the memtable, OP_DELETE
re-inserts the stored key-value pair. -/
def rollback_ops (tdb : tidesdb) : List txn_op → Option (Option Nat × tidesdb)
  | [] => some (none, tdb)
  | o :: rest =>
    if o.committed then
      match o.rollback_op with
      | none => none
      | some rop =>
        match find_cf tdb.column_families rop.column_family with
        | none => some (some 1028, tdb)
        | some _ =>
          let tdb1 :=
            match rop.op_code with
            | .OP_PUT => update_cf tdb rop.column_family (fun c =>
                { c with memtable := skiplist_delete c.memtable rop.kv.key })
            | .OP_DELETE => update_cf tdb rop.column_family (fun c =>
                { c with memtable :=
                    skiplist_put c.memtable rop.kv.key rop.kv.value rop.kv.ttl })
          rollback_ops tdb1 rest
    else rollback_ops tdb rest

/-- `tidesdb_txn_rollback`: apply the rollback records of all committed ops
in order.  `none` means the code reached the undefined dereference of an
uninitialized `rollback_op`. -/
def tidesdb_txn_rollback (tdb : tidesdb) (t : txn) :
    Option (Option Nat × tidesdb) :=
  rollback_ops tdb t.ops

/-! ### Cursor -/

/-- The state of `tidesdb_cursor` that `tidesdb_cursor_get` inspects:
`memtable_current` is `memtable_cursor->current` (the node the skiplist
cursor points at, if any); `sstable_page` is the key-value record obtained
by reading and deserializing the page under the sstable page cursor (`none`
when that read or deserialization fails). -/
structure tidesdb_cursor where
  memtable_current : Option key_value_pair
  sstable_page : Option key_value_pair
deriving Repr, DecidableEq

/-- `tidesdb_cursor_get`: when the memtable cursor is on a node, its key and
value are returned with no tombstone or TTL check; only entries read from an
SSTable page are checked — a tombstone yields error 1064, an expired ttl
(`ttl != -1 && ttl < now`) yields error 1065. -/
def tidesdb_cursor_get (now : Int) (c : tidesdb_cursor) :
    Except Nat (Bytes × Bytes) :=
  match c.memtable_current with
  | some node => .ok (node.key, node.value)
  | none =>
    match c.sstable_page with
    | none => .error 1060
    | some dkv =>
      if is_tombstone dkv.value then .error 1064
      else if dkv.ttl != -1 && dkv.ttl < now then .error 1065
      else .ok (dkv.key, dkv.value)

/-! ### Helper lemmas -/

theorem compare_keys_self (a : Bytes) : compare_keys a a = 0 := by
  induction a with
  | nil => rfl
  | cons x t ih => simp [compare_keys, ih]

/-- A freshly inserted key is found by a memtable lookup and returns the
inserted value. -/
theorem skiplist_get_put (m : skiplist) (key value : Bytes) (ttl : Int) :
    skiplist_get (skiplist_put m key value ttl) key = some value := by
  induction m with
  | nil => simp [skiplist_put, skiplist_get, List.find?]
  | cons e rest ih =>
    by_cases h1 : compare_keys key e.key < 0
    · simp [skiplist_put, h1, skiplist_get, List.find?]
    · by_cases h2 : compare_keys key e.key = 0
      · simp [skiplist_put, h1, h2, skiplist_get, List.find?]
      · have hne : (e.key == key) = false := by
          apply beq_false_of_ne
          intro hk
          exact h2 (by rw [hk, compare_keys_self])
        simpa [skiplist_put, h1, h2, skiplist_get, List.find?, hne] using ih

/-- Updating the first column family of a given name leaves lookups of that
name pointing at the updated column family, provided the update preserves
the name. -/
theorem find_cf_update_first (cfs : List column_family) (name : String)
    (f : column_family → column_family)
    (hf : ∀ c, (f c).config.name = c.config.name) :
    find_cf (update_first cfs name f) name = (find_cf cfs name).map f := by
  induction cfs with
  | nil => rfl
  | cons cf rest ih =>
    by_cases h : (cf.config.name == name) = true
    · simp [find_cf, update_first, h, List.find?, hf]
    · simp only [Bool.not_eq_true] at h
      simpa [find_cf, update_first, h, List.find?] using ih

theorem get_column_family_update_cf (tdb : tidesdb) (name : String)
    (f : column_family → column_family)
    (hf : ∀ c, (f c).config.name = c.config.name) :
    get_column_family (update_cf tdb name f) name =
      (get_column_family tdb name).map f :=
  find_cf_update_first tdb.column_families name f hf

/-- The page scan of one SSTable can only fail with the two "Key not found"
codes 1031 (tombstone) and 1039 (expired). -/
theorem sstable_scan_err_codes (now : Int) (key : Bytes)
    (pages : List key_value_pair) (code : Nat)
    (h : sstable_scan now key pages = .err code) : code = 1031 ∨ code = 1039 := by
  induction pages with
  | nil => simp [sstable_scan] at h
  | cons kv rest ih =>
    by_cases h0 : compare_keys kv.key key = 0
    · by_cases ht : is_tombstone kv.value = true
      · simp [sstable_scan, h0, ht] at h
        exact Or.inl h.symm
      · simp only [Bool.not_eq_true] at ht
        by_cases he : (kv.ttl != -1 && kv.ttl < now) = true
        · simp [sstable_scan, h0, ht, he] at h
          exact Or.inr h.symm
        · simp only [Bool.not_eq_true] at he
          simp [sstable_scan, h0, ht, he] at h
    · exact ih (by simpa [sstable_scan, h0] using h)

/-- The SSTable search of `tidesdb_get` never produces error 1066: that code
only arises from the tombstone check on the output buffer. -/
theorem sstables_get_ne_1066 (now : Int) (key : Bytes) (l : List sstable) :
    sstables_get_newest_first now key l ≠ .error 1066 := by
  induction l with
  | nil => simp [sstables_get_newest_first]
  | cons sst older ih =>
    by_cases hb : bloomfilter_check sst.bloom key = false
    · simpa [sstables_get_newest_first, hb] using ih
    · simp only [Bool.not_eq_false] at hb
      cases hscan : sstable_scan now key sst.pages with
      | found v => simp [sstables_get_newest_first, hb, hscan]
      | err code =>
        rcases sstable_scan_err_codes now key sst.pages code hscan with h | h <;>
          simp [sstables_get_newest_first, hb, hscan, h]
      | absent => simpa [sstables_get_newest_first, hb, hscan] using ih

/-- `tidesdb_get` with a non-tombstone output buffer never fails with 1066. -/
theorem tidesdb_get_ne_1066 (now : Int) (tdb : tidesdb) (cf_name : String)
    (key value0 : Bytes) (h : is_tombstone value0 = false) :
    tidesdb_get now tdb cf_name key value0 ≠ .error 1066 := by
  unfold tidesdb_get
  rw [h]
  simp only [Bool.false_eq_true, if_false]
  cases hcf : get_column_family tdb cf_name with
  | none => simp [hcf]
  | some cf =>
    cases hm : skiplist_get cf.memtable key with
    | some v =>
      by_cases ht : is_tombstone v = true <;> simp [hcf, hm, ht]
    | none => simp [hcf, hm, sstables_get_ne_1066]

/-- Replay of a WAL produced by a list of client operations against a
database holding exactly one column family (freshly opened, so with
memtable `m`) equals applying those operations to the memtable in order. -/
theorem replay_from_wal_single_cf (cfg : column_family_config)
    (ssts : List sstable) (w : List operation) (q : List queue_entry)
    (ops : List client_op) (m : skiplist) :
    replay_from_wal ⟨[⟨cfg, m, ssts⟩], w, q⟩ (ops.map (wal_record cfg.name)) =
      ⟨[⟨cfg, ops.foldl apply_client_op m, ssts⟩], w, q⟩ := by
  induction ops generalizing m with
  | nil => rfl
  | cons op rest ih =>
    cases op with
    | put key value ttl =>
      simpa [replay_from_wal, wal_record, find_cf, List.find?, update_cf,
        update_first, replay_op, apply_client_op] using ih (skiplist_put m key value ttl)
    | del key =>
      simpa [replay_from_wal, wal_record, find_cf, List.find?, update_cf,
        update_first, replay_op, apply_client_op] using
        ih (skiplist_put m key TOMBSTONE_BYTES (-1))

/-! ### Concrete states used by the evaluations -/

/-- A sample column-family configuration (threshold 1 MiB, level 12,
probability 0.24, uncompressed). -/
def sample_config : column_family_config := ⟨"cf1", 1048576, 12, mkRat 24 100, false⟩

/-- A freshly opened database holding the single column family "cf1". -/
def sample_db : tidesdb := ⟨[⟨sample_config, [], []⟩], [], []⟩

end TidesDB

deriving instance DecidableEq for Except

namespace TidesDB

/-! ### Claim theorems -/

/-- C1 (amended): for a key written by `tidesdb_put` into an existing column
family, where the write does not trigger a flush and is not followed by any
other operation, a `tidesdb_get` with a non-tombstone output buffer returns
the written value while `now < ttl` (or `ttl < 0`) — provided the written
value itself is not the 4-byte tombstone sentinel. -/
theorem put_then_get_returns_value (now : Int) (tdb : tidesdb)
    (cf_name : String) (key value value0 : Bytes) (ttl : Int)
    (cf : column_family)
    (hcf : get_column_family tdb cf_name = some cf)
    (hnoflush : (skiplist_total_size (skiplist_put cf.memtable key value ttl) : Int) <
      cf.config.flush_threshold)
    (hvalue : is_tombstone value = false)
    (hvalue0 : is_tombstone value0 = false)
    (httl : now < ttl ∨ ttl < 0) :
    (tidesdb_put now true tdb cf_name key value ttl).1 = none ∧
    tidesdb_get now (tidesdb_put now true tdb cf_name key value ttl).2
      cf_name key value0 = .ok value := by
  have hge : ¬ ((skiplist_total_size (skiplist_put cf.memtable key value ttl) : Int) ≥
      cf.config.flush_threshold) := not_le.mpr hnoflush
  have hput : tidesdb_put now true tdb cf_name key value ttl =
      (none, update_cf
        { tdb with wal := append_to_wal tdb.wal key value ttl OP_CODE.OP_PUT cf_name }
        cf_name
        (fun c => { c with memtable := skiplist_put cf.memtable key value ttl })) := by
    simp [tidesdb_put, hcf, hge]
  rw [hput]
  refine ⟨rfl, ?_⟩
  have hgc : get_column_family
      (update_cf
        { tdb with wal := append_to_wal tdb.wal key value ttl OP_CODE.OP_PUT cf_name }
        cf_name
        (fun c => { c with memtable := skiplist_put cf.memtable key value ttl }))
      cf_name =
      some { cf with memtable := skiplist_put cf.memtable key value ttl } := by
    rw [get_column_family_update_cf
        { tdb with wal := append_to_wal tdb.wal key value ttl OP_CODE.OP_PUT cf_name }
        cf_name
        (fun c => { c with memtable := skiplist_put cf.memtable key value ttl })
        (fun _ => rfl)]
    have hcf1 : get_column_family
        { tdb with wal := append_to_wal tdb.wal key value ttl OP_CODE.OP_PUT cf_name }
        cf_name = some cf := hcf
    rw [hcf1]
    rfl
  simp [tidesdb_get, hvalue0, hgc, skiplist_get_put, hvalue]

/-- C1 counterexample: the claim as stated fails when the written value is
itself the 4-byte tombstone sentinel.  `put` succeeds and `ttl = -1 < 0`,
yet `get` answers error 1031 ("Key not found"), not the written value. -/
theorem put_tombstone_value_then_get_fails :
    (tidesdb_put 0 true sample_db "cf1" [1] TOMBSTONE_BYTES (-1)).1 = none ∧
    ((-1 : Int) < 0) ∧
    tidesdb_get 0 (tidesdb_put 0 true sample_db "cf1" [1] TOMBSTONE_BYTES (-1)).2
      "cf1" [1] [] = .error 1031 ∧
    tidesdb_get 0 (tidesdb_put 0 true sample_db "cf1" [1] TOMBSTONE_BYTES (-1)).2
      "cf1" [1] [] ≠ .ok TOMBSTONE_BYTES := by
  refine ⟨rfl, by decide, rfl, by decide⟩

/-- C1 witness: a concrete instantiation of `put_then_get_returns_value`. -/
theorem put_then_get_returns_value_witness :
    (tidesdb_put 0 true sample_db "cf1" [1] [2] (-1)).1 = none ∧
    tidesdb_get 0 (tidesdb_put 0 true sample_db "cf1" [1] [2] (-1)).2
      "cf1" [1] [] = .ok [2] :=
  put_then_get_returns_value 0 sample_db "cf1" [1] [2] [] (-1)
    ⟨sample_config, [], []⟩ rfl (by decide) rfl rfl (Or.inr (by decide))

/-- C2: replaying a WAL produced by any sequence of put/delete client
operations against a freshly reopened database holding the targeted column
family yields exactly the memtable obtained by applying the operations in
order — consequently `get` returns the same answer on the replayed state as
on the directly built state, for every key. -/
theorem wal_replay_round_trip (cfg : column_family_config)
    (ssts : List sstable) (w : List operation) (q : List queue_entry)
    (ops : List client_op) :
    replay_from_wal ⟨[⟨cfg, [], ssts⟩], w, q⟩ (ops.map (wal_record cfg.name)) =
      ⟨[⟨cfg, ops.foldl apply_client_op [], ssts⟩], w, q⟩ ∧
    ∀ (now : Int) (key value0 : Bytes),
      tidesdb_get now
        (replay_from_wal ⟨[⟨cfg, [], ssts⟩], w, q⟩ (ops.map (wal_record cfg.name)))
        cfg.name key value0 =
      tidesdb_get now ⟨[⟨cfg, ops.foldl apply_client_op [], ssts⟩], w, q⟩
        cfg.name key value0 := by
  have h := replay_from_wal_single_cf cfg ssts w q ops []
  exact ⟨h, fun now key value0 => by rw [h]⟩

/-- C3 at its failing input: `put(cf1, "x", "1")`; force flush;
`delete(cf1, "x")`; force flush; then `get(cf1, "x")` returns the old value
"1" (byte 49) instead of KeyNotFound, because `_flush_memtable` skips
tombstones so the delete never reaches disk while the older SSTable still
holds the value. -/
theorem flushed_tombstone_resurrects_old_value :
    tidesdb_get 0
      (force_flush 0
        ((tidesdb_delete
            (force_flush 0 ((tidesdb_put 0 true sample_db "cf1" [120] [49] (-1)).2)
              "cf1")
            "cf1" [120]).2)
        "cf1")
      "cf1" [120] [] = .ok [49] := rfl

/-- C4 at its failing input: the kv pair with key 97, a non-tombstone value
and `ttl = -1` (no expiry) is present in the first input sstable, yet the
merge output of `_merge_sstables` (the only sstable produced by the
compaction of the pair) does not contain it: the merge loop keeps only
records with `ttl > 0 && ttl > now`. -/
theorem merge_drops_non_expiring_pair :
    is_tombstone [49] = false ∧
    merge_sstables 100
      ⟨[[97], [98]], [⟨[97], [49], -1⟩, ⟨[98], [50], 1000⟩]⟩
      ⟨[[99]], [⟨[99], [51], 1000⟩]⟩ =
      some ⟨[[99], [98]], [⟨[98], [50], 1000⟩, ⟨[99], [51], 1000⟩]⟩ ∧
    (⟨[97], [49], -1⟩ : key_value_pair) ∉
      [(⟨[98], [50], 1000⟩ : key_value_pair), ⟨[99], [51], 1000⟩] := by
  refine ⟨rfl, rfl, by decide⟩

/-- C5 at its failing input: `put(cf1, "t", "v", ttl = 1)` at time 0, then a
forced flush at time 0, then `get(cf1, "t")` at time 5 > ttl returns the
value instead of KeyNotFound: `_flush_memtable` writes every record with its
ttl field replaced by -1, so a flushed record never expires. -/
theorem flush_erases_ttl_get_after_expiry :
    (1 : Int) < 5 ∧
    tidesdb_get 5
      (force_flush 0 ((tidesdb_put 0 true sample_db "cf1" [116] [118] 1).2) "cf1")
      "cf1" [116] [] = .ok [118] :=
  ⟨by decide, rfl⟩

/-- C6 at its failing input: a transaction with a single committed PUT of
key 97.  The commit succeeds and `get` sees the value, but the rollback
reaches the dereference of the `rollback_op` pointer that
`tidesdb_txn_put` never initialized (result `none` = undefined behavior),
so the code does not apply the inverse delete the claim describes. -/
theorem txn_rollback_reads_uninitialized_rollback_op :
    (tidesdb_txn_commit sample_db
        (tidesdb_txn_put (tidesdb_txn_begin "cf1") [97] [49] (-1))).1 = none ∧
    tidesdb_get 0
      (tidesdb_txn_commit sample_db
        (tidesdb_txn_put (tidesdb_txn_begin "cf1") [97] [49] (-1))).2.1
      "cf1" [97] [] = .ok [49] ∧
    tidesdb_txn_rollback
      (tidesdb_txn_commit sample_db
        (tidesdb_txn_put (tidesdb_txn_begin "cf1") [97] [49] (-1))).2.1
      (tidesdb_txn_commit sample_db
        (tidesdb_txn_put (tidesdb_txn_begin "cf1") [97] [49] (-1))).2.2 = none :=
  ⟨rfl, rfl, rfl⟩

/-- C7 at its failing input: creating a column family named "cf1" twice in a
row succeeds both times and leaves the catalog with two column families of
the same name — `_add_column_family` performs no duplicate-name check, so
name uniqueness is not an invariant of reachable states. -/
theorem create_column_family_allows_duplicate_names :
    ((tidesdb_create_column_family
        (tidesdb_create_column_family ⟨[], [], []⟩ "cf1" 1048576 12 (mkRat 24 100) false).2
        "cf1" 1048576 12 (mkRat 24 100) false).1 = none) ∧
    ((tidesdb_create_column_family
        (tidesdb_create_column_family ⟨[], [], []⟩ "cf1" 1048576 12 (mkRat 24 100) false).2
        "cf1" 1048576 12 (mkRat 24 100) false).2.column_families.map
      (fun c => c.config.name)) = ["cf1", "cf1"] := by
  refine ⟨by decide, by decide⟩

/-- C8: whenever the caller-supplied output buffer initially holds exactly
the 4-byte tombstone sentinel, `tidesdb_get` fails with error 1066 for every
database state, column-family name and key (in particular before the column
family is resolved), and its answer differs from the answer it gives for an
empty initial buffer — so the result of `get` depends on the initial
contents of its output parameter. -/
theorem get_fails_on_tombstone_out_buffer (now : Int) (tdb : tidesdb)
    (cf_name : String) (key value0 : Bytes)
    (h : is_tombstone value0 = true) :
    tidesdb_get now tdb cf_name key value0 = .error 1066 ∧
    tidesdb_get now tdb cf_name key value0 ≠ tidesdb_get now tdb cf_name key [] := by
  have h1 : tidesdb_get now tdb cf_name key value0 = .error 1066 := by
    simp [tidesdb_get, h]
  refine ⟨h1, ?_⟩
  rw [h1]
  intro heq
  exact tidesdb_get_ne_1066 now tdb cf_name key [] rfl heq.symm

/-- C8 witness: concrete instantiation on a database with no column
families at all: the tombstone buffer is rejected with error 1066 rather
than error 1028 (column family not found). -/
theorem get_fails_on_tombstone_out_buffer_witness :
    tidesdb_get 0 ⟨[], [], []⟩ "zz" [1] TOMBSTONE_BYTES = .error 1066 ∧
    tidesdb_get 0 ⟨[], [], []⟩ "zz" [1] TOMBSTONE_BYTES ≠
      tidesdb_get 0 ⟨[], [], []⟩ "zz" [1] [] :=
  get_fails_on_tombstone_out_buffer 0 ⟨[], [], []⟩ "zz" [1] TOMBSTONE_BYTES rfl

/-- C9: when the cursor is positioned on a memtable entry,
`tidesdb_cursor_get` returns that entry without any error — in particular
for a tombstone value or an expired ttl — while the tombstone and expiry
checks do fire on entries read from an SSTable page (errors 1064 and
1065). -/
theorem cursor_get_skips_checks_on_memtable_entries :
    (∀ (now : Int) (node : key_value_pair) (sp : Option key_value_pair),
      tidesdb_cursor_get now ⟨some node, sp⟩ = .ok (node.key, node.value)) ∧
    (∀ (now ttl : Int) (key : Bytes),
      tidesdb_cursor_get now ⟨none, some ⟨key, TOMBSTONE_BYTES, ttl⟩⟩ =
        .error 1064) ∧
    tidesdb_cursor_get 5 ⟨none, some ⟨[1], [2], 1⟩⟩ = .error 1065 :=
  ⟨fun _ _ _ => rfl, fun _ _ _ => rfl, rfl⟩

/-- C10: when the memtable insertion step of `tidesdb_put` fails (the
external `skiplist_put` returns false) on an existing column family, the
call returns error 1050 while the operation record remains appended to the
WAL and the column families (hence the memtable) are unchanged: the WAL
append is not undone. -/
theorem put_keeps_wal_append_on_memtable_failure (now : Int) (tdb : tidesdb)
    (cf_name : String) (key value : Bytes) (ttl : Int)
    (hcf : (get_column_family tdb cf_name).isSome = true) :
    (tidesdb_put now false tdb cf_name key value ttl).1 = some 1050 ∧
    (tidesdb_put now false tdb cf_name key value ttl).2.wal =
      tdb.wal ++ [⟨.OP_PUT, cf_name, ⟨key, value, ttl⟩⟩] ∧
    (tidesdb_put now false tdb cf_name key value ttl).2.column_families =
      tdb.column_families := by
  obtain ⟨cf, h⟩ := Option.isSome_iff_exists.mp hcf
  simp [tidesdb_put, h, append_to_wal]

/-- C10 witness: concrete instantiation of
`put_keeps_wal_append_on_memtable_failure`. -/
theorem put_keeps_wal_append_on_memtable_failure_witness :
    (tidesdb_put 0 false sample_db "cf1" [1] [2] (-1)).1 = some 1050 ∧
    (tidesdb_put 0 false sample_db "cf1" [1] [2] (-1)).2.wal =
      sample_db.wal ++ [⟨.OP_PUT, "cf1", ⟨[1], [2], -1⟩⟩] ∧
    (tidesdb_put 0 false sample_db "cf1" [1] [2] (-1)).2.column_families =
      sample_db.column_families :=
  put_keeps_wal_append_on_memtable_failure 0 sample_db "cf1" [1] [2] (-1) rfl

end TidesDB
